import Mathlib

/-!
Shallow embedding of the row-generation and serialization loop of
src/generate-large-csv.py, together with its command-line dispatch.

Numbers that Python handles as floats are modelled as exact rationals
(ℚ); Python's round(x, 2) becomes round2 below.  Each call to the
random module is modelled as a function of one arbitrary natural-number
draw, mapped into the range the corresponding Python primitive
guarantees (random.randint lo hi lands in [lo, hi], random.choice picks
an element of its list, random.uniform lo hi lands in [lo, hi],
random.random lands in [0, 1)).  A run of the generator is parameterised
by the sequence of per-row draws, so properties quantified over the
draws hold for every possible behaviour of the random source.
-/

/-- Model of random.randint lo hi: an arbitrary draw r mapped into [lo, hi]. -/
def randint (lo hi : Nat) (r : Nat) : Nat := lo + r % (hi + 1 - lo)

/-- Model of random.choice l: an arbitrary draw r selects index r mod length. -/
def randChoice {α : Type} (l : List α) (dflt : α) (r : Nat) : α :=
  l.getD (r % l.length) dflt

/-- Model of random.uniform lo hi: an arbitrary draw mapped onto a rational
grid spanning [lo, hi] inclusive (the Python primitive can return either
endpoint). -/
def uniformQ (lo hi : ℚ) (r : Nat) : ℚ :=
  lo + (hi - lo) * ((r % 1000001 : Nat) : ℚ) / 1000000

/-- Model of random.random(): an arbitrary draw mapped onto a rational grid
in [0, 1). -/
def randomUnit (r : Nat) : ℚ := ((r % 1000000 : Nat) : ℚ) / 1000000

/-- Model of Python round(x, 2): round to the nearest multiple of 1/100. -/
def round2 (q : ℚ) : ℚ := ((round (q * 100) : ℤ) : ℚ) / 100

/-- Model of Python round(x, 1): round to the nearest multiple of 1/10. -/
def round1 (q : ℚ) : ℚ := ((round (q * 10) : ℤ) : ℚ) / 10

/-- Decimal digit as a character, 48 is the code of the zero digit. -/
def digitChar (d : Nat) : Char := Char.ofNat (48 + d)

/-- Little-endian decimal digits of n, with explicit fuel so that the
recursion is structural (fuel at least n suffices). -/
def natDigitsLE : Nat → Nat → List Nat
  | 0, _ => []
  | _ + 1, 0 => []
  | fuel + 1, n + 1 => (n + 1) % 10 :: natDigitsLE fuel ((n + 1) / 10)

/-- Most-significant-first decimal digit characters of n, as produced by
Python's d-format. -/
def charDigits (n : Nat) : List Char :=
  if n = 0 then ['0'] else ((natDigitsLE n n).map digitChar).reverse

/-- Zero padding to width w, as in Python's 0-padded width-w format: the
digits are left-padded with zero characters up to width w. -/
def zfill (w : Nat) (cs : List Char) : List Char :=
  List.replicate (w - cs.length) '0' ++ cs

/-- transaction_id of row i, from the source: the TXN prefix followed by
i+1 zero-padded to 8 digits. -/
def txnId (i : Nat) : String :=
  String.mk ('T' :: 'X' :: 'N' :: zfill 8 (charDigits (i + 1)))

/-- Decode a most-significant-first list of digit characters back to the
number it denotes (used to reason about padded decimal strings). -/
def decodeDigits (cs : List Char) : Nat :=
  cs.foldl (fun a c => 10 * a + (c.toNat - 48)) 0

/-- The categories list of the source. -/
def categories : List String :=
  ["Electronics", "Clothing", "Food", "Home", "Sports", "Books", "Toys", "Beauty"]

/-- The payment_methods list of the source. -/
def payment_methods : List String :=
  ["Credit Card", "Debit Card", "Cash", "Mobile Payment", "Gift Card"]

/-- The locations list of the source. -/
def locations : List String :=
  ["New York", "Los Angeles", "Chicago", "Houston", "Phoenix", "Philadelphia"]

/-- The segments list of the source. -/
def segments : List String :=
  ["Regular", "Silver", "Gold", "Platinum"]

/-- The discount candidate list of the source, line 50:
[0, 0, 0, 0.1, 0.15, 0.2, 0.25]. -/
def discounts : List ℚ := [0, 0, 0, 1/10, 3/20, 1/5, 1/4]

/-- The returned candidate list of the source, line 58. -/
def returnedChoices : List String := ["Yes", "No", "No", "No", "No"]

/-- The header list of the source, lines 16 to 21, in the source's order. -/
def headers : List String :=
  ["transaction_id", "timestamp", "customer_id", "product_id",
   "category", "quantity", "unit_price", "total_amount",
   "payment_method", "store_location", "discount_applied",
   "customer_age", "customer_segment", "rating", "returned"]

/-- The offsets drawn by datetime.timedelta in the source: days, hours and
minutes past the base date 2020-01-01. -/
structure Timestamp where
  days : Nat
  hours : Nat
  minutes : Nat
deriving DecidableEq

/-- The raw draws consumed by the random calls of one loop iteration, in
source order; each field is the arbitrary natural number feeding the
corresponding modelled random primitive. -/
structure Draws where
  days : Nat
  hours : Nat
  minutes : Nat
  custN : Nat
  prodN : Nat
  catIdx : Nat
  qty : Nat
  priceRaw : Nat
  discIdx : Nat
  payIdx : Nat
  locIdx : Nat
  age : Nat
  segIdx : Nat
  ratingP : Nat
  ratingRaw : Nat
  retIdx : Nat
deriving DecidableEq

/-- The all-zero draw, used for concrete evaluations. -/
def drawsZero : Draws := ⟨0, 0, 0, 0, 0, 0, 0, 0, 0, 0, 0, 0, 0, 0, 0, 0⟩

/-- The constant all-zero draw sequence. -/
def dsZero : Nat → Draws := fun _ => drawsZero

/-- A draw sequence equal to drawsZero except that the discount index is 3. -/
def drawsDisc3 : Draws := { drawsZero with discIdx := 3 }

/-- One Transaction Record, the 15 fields built by one loop iteration of
the source (lines 39 to 58).  rating is none when the source writes the
empty string. -/
structure Row where
  transaction_id : String
  timestamp : Timestamp
  customer_id : String
  product_id : String
  category : String
  quantity : Nat
  unit_price : ℚ
  total_amount : ℚ
  payment_method : String
  store_location : String
  discount_applied : ℚ
  customer_age : Nat
  customer_segment : String
  rating : Option ℚ
  returned : String
deriving DecidableEq

/-- One loop iteration of the source, lines 39 to 58: row index i, draws d. -/
def genRow (i : Nat) (d : Draws) : Row :=
  let transaction_id := txnId i
  let timestamp : Timestamp :=
    ⟨randint 0 1095 d.days, randint 0 23 d.hours, randint 0 59 d.minutes⟩
  let customer_id :=
    String.mk ('C' :: 'U' :: 'S' :: 'T' :: zfill 6 (charDigits (randint 1 50000 d.custN)))
  let product_id :=
    String.mk ('P' :: 'R' :: 'O' :: 'D' :: zfill 5 (charDigits (randint 1 5000 d.prodN)))
  let category := randChoice categories "" d.catIdx
  let quantity := randint 1 10 d.qty
  let unit_price := round2 (uniformQ (599/100) (99999/100) d.priceRaw)
  let discount := randChoice discounts 0 d.discIdx
  let total_amount := round2 ((quantity : ℚ) * unit_price * (1 - discount))
  let payment_method := randChoice payment_methods "" d.payIdx
  let store_location := randChoice locations "" d.locIdx
  let discount_applied := discount
  let customer_age := randint 18 80 d.age
  let customer_segment := randChoice segments "" d.segIdx
  let rating :=
    if randomUnit d.ratingP > 1/10 then some (round1 (uniformQ 1 5 d.ratingRaw)) else none
  let returned := randChoice returnedChoices "" d.retIdx
  { transaction_id, timestamp, customer_id, product_id, category, quantity,
    unit_price, total_amount, payment_method, store_location, discount_applied,
    customer_age, customer_segment, rating, returned }

/-- One serialized cell of a CSV record, tagged by the kind of value the
source writes there (string, datetime, integer, decimal, possibly-empty
decimal). -/
inductive Cell where
  | s (v : String)
  | ts (v : Timestamp)
  | n (v : Nat)
  | q (v : ℚ)
  | oq (v : Option ℚ)
deriving DecidableEq

/-- The serialized cells of one data row, in the column order of the
writer.writerow call of the source, lines 60 to 65. -/
def rowCells (r : Row) : List Cell :=
  [Cell.s r.transaction_id, Cell.ts r.timestamp, Cell.s r.customer_id,
   Cell.s r.product_id, Cell.s r.category, Cell.n r.quantity,
   Cell.q r.unit_price, Cell.q r.total_amount, Cell.s r.payment_method,
   Cell.s r.store_location, Cell.q r.discount_applied, Cell.n r.customer_age,
   Cell.s r.customer_segment, Cell.oq r.rating, Cell.s r.returned]

/-- The header record as written by writer.writerow(headers). -/
def headerCells : List Cell := headers.map Cell.s

/-- The cell of a row that belongs to a given header name. -/
def cellOf (r : Row) (name : String) : Cell :=
  if name = "transaction_id" then Cell.s r.transaction_id
  else if name = "timestamp" then Cell.ts r.timestamp
  else if name = "customer_id" then Cell.s r.customer_id
  else if name = "product_id" then Cell.s r.product_id
  else if name = "category" then Cell.s r.category
  else if name = "quantity" then Cell.n r.quantity
  else if name = "unit_price" then Cell.q r.unit_price
  else if name = "total_amount" then Cell.q r.total_amount
  else if name = "payment_method" then Cell.s r.payment_method
  else if name = "store_location" then Cell.s r.store_location
  else if name = "discount_applied" then Cell.q r.discount_applied
  else if name = "customer_age" then Cell.n r.customer_age
  else if name = "customer_segment" then Cell.s r.customer_segment
  else if name = "rating" then Cell.oq r.rating
  else if name = "returned" then Cell.s r.returned
  else Cell.s ""

/-- Observable outcome of one run of generate_large_csv: the records
written to the sink in order (header included), the progress lines
emitted (percentage and cumulative row count, each flushed as emitted),
and whether the run raised the modulo-by-zero fault (faulted = true)
instead of completing. -/
structure Trace where
  records : List (List Cell)
  progress : List (ℚ × Nat)
  faulted : Bool
deriving DecidableEq

/-- The percentage printed by the progress line: (i + 1) / num_rows * 100. -/
def pctOf (num_rows r : Nat) : ℚ := (r : ℚ) / (num_rows : ℚ) * 100

/-- One iteration of the source loop, lines 37 to 71: writes the data row,
then evaluates (i + 1) % progress_interval, which in Python raises
ZeroDivisionError when progress_interval is 0; a faulted trace is left
unchanged because the loop has already aborted. -/
def stepRow (ds : Nat → Draws) (num_rows q : Nat) (t : Trace) (i : Nat) : Trace :=
  if t.faulted then t
  else
    let t1 : Trace := { t with records := t.records ++ [rowCells (genRow i (ds i))] }
    if q = 0 then { t1 with faulted := true }
    else if (i + 1) % q = 0 then
      { t1 with progress := t1.progress ++ [(pctOf num_rows (i + 1), i + 1)] }
    else t1

/-- The generate_large_csv function of the source, lines 10 to 79, as the
trace of records and progress lines it produces: the header is written
first, progress_interval is num_rows // 20, and the loop runs over row
indices 0 .. num_rows - 1 consuming the draw sequence ds. -/
def generate_large_csv (num_rows : Nat) (ds : Nat → Draws) : Trace :=
  (List.range num_rows).foldl (stepRow ds num_rows (num_rows / 20))
    { records := [headerCells], progress := [], faulted := false }

/-- Result of the command-line dispatch: either the usage message is
printed and nothing is generated, or the generator runs on a path and a
row count. -/
inductive MainAction where
  | usage : MainAction
  | run (path : String) (rows : Nat) : MainAction
deriving DecidableEq

/-- Model of Python str.lower for the selector comparison. -/
def lowerStr (s : String) : String := String.mk (s.data.map Char.toLower)

/-- The argument dispatch of the source, lines 81 to 97: args is argv
without the program name. -/
def mainDispatch (args : List String) : MainAction :=
  match args with
  | [] => MainAction.run "test-datasets/large/transactions-medium.csv" 100000
  | a :: _ =>
    if lowerStr a = "small" then
      MainAction.run "test-datasets/large/transactions-small.csv" 10000
    else if lowerStr a = "medium" then
      MainAction.run "test-datasets/large/transactions-medium.csv" 100000
    else if lowerStr a = "large" then
      MainAction.run "test-datasets/large/transactions-large.csv" 1000000
    else if lowerStr a = "xlarge" then
      MainAction.run "test-datasets/large/transactions-xlarge.csv" 5000000
    else MainAction.usage

/-- Header order as written in spec section 3, stated from the spec's words
for comparison with the source's headers list. -/
def specSectionThreeHeaders : List String :=
  ["transaction_id", "timestamp", "customer_id", "product_id",
   "category", "quantity", "unit_price", "discount_applied",
   "total_amount", "payment_method", "store_location",
   "customer_age", "customer_segment", "rating", "returned"]

/-- Discount candidate multiset as written in the spec and in claim C2,
stated from the spec's words for comparison with the source's list. -/
def specDiscountMultiset : List ℚ := [0, 0, 0, 0, 1/10, 3/20, 1/5, 1/4]

/-- Rows written so far cross a 1/20th boundary of num_rows at cumulative
row count r when some multiple m/20 of num_rows (1 ≤ m ≤ 20) lies in the
half-open interval (r - 1, r]. -/
def crossesBoundary (num_rows r : Nat) : Prop :=
  ∃ m < 21, 1 ≤ m ∧ 20 * (r - 1) < m * num_rows ∧ m * num_rows ≤ 20 * r

instance (num_rows r : Nat) : Decidable (crossesBoundary num_rows r) := by
  unfold crossesBoundary
  infer_instance

/-! Helper lemmas: projections of genRow, range lemmas for the modelled
random primitives, and rounding facts. -/

lemma genRow_quantity (i : Nat) (d : Draws) :
    (genRow i d).quantity = randint 1 10 d.qty := rfl

lemma genRow_customer_age (i : Nat) (d : Draws) :
    (genRow i d).customer_age = randint 18 80 d.age := rfl

lemma genRow_unit_price (i : Nat) (d : Draws) :
    (genRow i d).unit_price = round2 (uniformQ (599/100) (99999/100) d.priceRaw) := rfl

lemma genRow_discount_applied (i : Nat) (d : Draws) :
    (genRow i d).discount_applied = randChoice discounts 0 d.discIdx := rfl

lemma genRow_transaction_id (i : Nat) (d : Draws) :
    (genRow i d).transaction_id = txnId i := rfl

lemma randint_bounds (lo hi r : Nat) (h : lo ≤ hi) :
    lo ≤ randint lo hi r ∧ randint lo hi r ≤ hi := by
  unfold randint
  have hm : r % (hi + 1 - lo) < hi + 1 - lo := Nat.mod_lt _ (by omega)
  omega

lemma randChoice_mem {α : Type} (l : List α) (dflt : α) (r : Nat)
    (h : 0 < l.length) : randChoice l dflt r ∈ l := by
  unfold randChoice
  have hm : r % l.length < l.length := Nat.mod_lt _ h
  rw [List.getD_eq_getElem l dflt hm]
  exact List.getElem_mem hm

lemma uniformQ_bounds (lo hi : ℚ) (r : Nat) (h : lo ≤ hi) :
    lo ≤ uniformQ lo hi r ∧ uniformQ lo hi r ≤ hi := by
  unfold uniformQ
  have h0 : (0 : ℚ) ≤ ((r % 1000001 : Nat) : ℚ) := Nat.cast_nonneg _
  have h1 : ((r % 1000001 : Nat) : ℚ) ≤ 1000000 := by
    have : r % 1000001 ≤ 1000000 :=
      Nat.lt_succ_iff.mp (Nat.mod_lt _ (by norm_num))
    exact_mod_cast this
  constructor
  · have : (0 : ℚ) ≤ (hi - lo) * ((r % 1000001 : Nat) : ℚ) / 1000000 :=
      div_nonneg (mul_nonneg (by linarith) h0) (by norm_num)
    linarith
  · have : (hi - lo) * ((r % 1000001 : Nat) : ℚ) / 1000000 ≤ hi - lo := by
      rw [div_le_iff₀ (by norm_num : (0 : ℚ) < 1000000)]
      have := mul_le_mul_of_nonneg_left h1 (by linarith : (0 : ℚ) ≤ hi - lo)
      linarith
    linarith

lemma round2_mono {x y : ℚ} (h : x ≤ y) : round2 x ≤ round2 y := by
  unfold round2
  have hr : round (x * 100) ≤ round (y * 100) := by
    rw [round_eq, round_eq]
    exact Int.floor_le_floor (by linarith)
  have hc : ((round (x * 100) : ℤ) : ℚ) ≤ ((round (y * 100) : ℤ) : ℚ) :=
    Int.cast_le.mpr hr
  linarith

lemma round2_intMul (m : ℤ) : round2 ((m : ℚ) / 100) = (m : ℚ) / 100 := by
  unfold round2
  have h : ((m : ℚ) / 100) * 100 = (m : ℚ) := by field_simp
  rw [h, round_intCast]

lemma round2_fixed_599 : round2 (599/100 : ℚ) = 599/100 := by
  have h := round2_intMul 599
  push_cast at h
  exact h

lemma round2_fixed_99999 : round2 (99999/100 : ℚ) = 99999/100 := by
  have h := round2_intMul 99999
  push_cast at h
  exact h

lemma unit_price_bounds (r : Nat) :
    (599/100 : ℚ) ≤ round2 (uniformQ (599/100) (99999/100) r) ∧
      round2 (uniformQ (599/100) (99999/100) r) ≤ 99999/100 := by
  obtain ⟨hl, hu⟩ := uniformQ_bounds (599/100) (99999/100) r (by norm_num)
  constructor
  · calc (599/100 : ℚ) = round2 (599/100) := round2_fixed_599.symm
      _ ≤ round2 (uniformQ (599/100) (99999/100) r) := round2_mono hl
  · calc round2 (uniformQ (599/100) (99999/100) r) ≤ round2 (99999/100) :=
        round2_mono hu
      _ = 99999/100 := round2_fixed_99999

/-! Helper lemmas on decimal digit lists, for the zero-padded identifier
format of transaction_id. -/

lemma natDigitsLE_lt_ten : ∀ (fuel n : Nat), ∀ d ∈ natDigitsLE fuel n, d < 10 := by
  intro fuel
  induction fuel with
  | zero => intro n d h; simp [natDigitsLE] at h
  | succ f ih =>
    intro n d h
    cases n with
    | zero => simp [natDigitsLE] at h
    | succ m =>
      simp only [natDigitsLE, List.mem_cons] at h
      rcases h with h | h
      · subst h; exact Nat.mod_lt _ (by norm_num)
      · exact ih _ d h

lemma natDigitsLE_val : ∀ (fuel n : Nat), n ≤ fuel →
    (natDigitsLE fuel n).foldr (fun d a => d + 10 * a) 0 = n := by
  intro fuel
  induction fuel with
  | zero => intro n h; interval_cases n; simp [natDigitsLE]
  | succ f ih =>
    intro n h
    cases n with
    | zero => simp [natDigitsLE]
    | succ m =>
      simp only [natDigitsLE, List.foldr_cons]
      rw [ih ((m + 1) / 10) (by omega)]
      omega

lemma digitChar_toNat (d : Nat) (h : d < 10) : (digitChar d).toNat = 48 + d := by
  interval_cases d <;> decide

lemma foldr_decode_eq : ∀ (l : List Nat), (∀ d ∈ l, d < 10) →
    l.foldr (fun d a => 10 * a + ((digitChar d).toNat - 48)) 0 =
      l.foldr (fun d a => d + 10 * a) 0 := by
  intro l
  induction l with
  | nil => intro _; rfl
  | cons d t ih =>
    intro h
    simp only [List.foldr_cons]
    rw [ih (fun x hx => h x (List.mem_cons_of_mem d hx))]
    rw [digitChar_toNat d (h d (List.mem_cons_self d t))]
    omega

lemma decode_charDigits (n : Nat) : decodeDigits (charDigits n) = n := by
  by_cases h : n = 0
  · subst h; decide
  · unfold charDigits decodeDigits
    rw [if_neg h, List.foldl_reverse, List.foldr_map]
    have hlt := natDigitsLE_lt_ten n n
    calc (natDigitsLE n n).foldr (fun d a => 10 * a + ((digitChar d).toNat - 48)) 0
        = (natDigitsLE n n).foldr (fun d a => d + 10 * a) 0 := foldr_decode_eq _ hlt
      _ = n := natDigitsLE_val n n le_rfl

lemma foldl_decode_replicate_zero (k : Nat) :
    (List.replicate k '0').foldl (fun a c => 10 * a + (c.toNat - 48)) 0 = 0 := by
  induction k with
  | zero => rfl
  | succ k ih => simpa [List.replicate_succ] using ih

lemma decode_pad (k n : Nat) :
    decodeDigits (List.replicate k '0' ++ charDigits n) = n := by
  unfold decodeDigits
  rw [List.foldl_append, foldl_decode_replicate_zero]
  exact decode_charDigits n

lemma decode_txnId (i : Nat) : decodeDigits ((txnId i).data.drop 3) = i + 1 := by
  show decodeDigits (List.replicate (8 - (charDigits (i + 1)).length) '0' ++
    charDigits (i + 1)) = i + 1
  exact decode_pad _ _

lemma txnId_injective : Function.Injective txnId := by
  intro i j h
  have h2 := congrArg (fun s => decodeDigits (s.data.drop 3)) h
  simp only [decode_txnId] at h2
  omega

lemma natDigitsLE_length : ∀ (fuel n k : Nat), n < 10 ^ k →
    (natDigitsLE fuel n).length ≤ k := by
  intro fuel
  induction fuel with
  | zero => intro n k _; simp [natDigitsLE]
  | succ f ih =>
    intro n k h
    cases n with
    | zero => simp [natDigitsLE]
    | succ m =>
      cases k with
      | zero => simp at h
      | succ k0 =>
        simp only [natDigitsLE, List.length_cons]
        have hdiv : (m + 1) / 10 < 10 ^ k0 := by
          rw [Nat.div_lt_iff_lt_mul (by norm_num)]
          calc m + 1 < 10 ^ (k0 + 1) := h
            _ = 10 ^ k0 * 10 := by ring
        exact Nat.succ_le_succ (ih _ _ hdiv)

lemma charDigits_length_le (n : Nat) (h : n < 10 ^ 8) :
    (charDigits n).length ≤ 8 := by
  by_cases h0 : n = 0
  · subst h0; decide
  · unfold charDigits
    rw [if_neg h0]
    simp only [List.length_reverse, List.length_map]
    exact natDigitsLE_length n n 8 h

lemma txnId_length (i : Nat) (h : i + 1 < 10 ^ 8) : (txnId i).data.length = 11 := by
  show ('T' :: 'X' :: 'N' :: zfill 8 (charDigits (i + 1))).length = 11
  have hle := charDigits_length_le (i + 1) h
  simp only [List.length_cons, zfill, List.length_append, List.length_replicate]
  omega

/-! Helper lemmas on the generator trace. -/

lemma stepRow_of_faulted (ds : Nat → Draws) (num_rows q : Nat) (t : Trace)
    (i : Nat) (h : t.faulted = true) : stepRow ds num_rows q t i = t := by
  unfold stepRow
  rw [if_pos h]

lemma foldl_stepRow_of_faulted (ds : Nat → Draws) (num_rows q : Nat)
    (l : List Nat) (t : Trace) (h : t.faulted = true) :
    l.foldl (stepRow ds num_rows q) t = t := by
  induction l with
  | nil => rfl
  | cons i l ih => rw [List.foldl_cons, stepRow_of_faulted ds num_rows q t i h, ih]

lemma generate_of_interval_zero (num_rows : Nat) (ds : Nat → Draws)
    (h1 : 1 ≤ num_rows) (h0 : num_rows / 20 = 0) :
    generate_large_csv num_rows ds =
      ⟨[headerCells, rowCells (genRow 0 (ds 0))], [], true⟩ := by
  obtain ⟨m, rfl⟩ : ∃ m, num_rows = m + 1 := ⟨num_rows - 1, by omega⟩
  unfold generate_large_csv
  rw [h0, List.range_succ_eq_map, List.foldl_cons]
  have hstep : stepRow ds (m + 1) 0
      { records := [headerCells], progress := [], faulted := false } 0 =
      ⟨[headerCells, rowCells (genRow 0 (ds 0))], [], true⟩ := by
    unfold stepRow
    simp
  rw [hstep]
  exact foldl_stepRow_of_faulted _ _ _ _ _ rfl

lemma foldl_stepRow_ok (ds : Nat → Draws) (num_rows q : Nat) (hq : q ≠ 0) :
    ∀ (n s : Nat) (t : Trace), t.faulted = false →
    (List.range' s n).foldl (stepRow ds num_rows q) t =
      ⟨t.records ++ (List.range' s n).map (fun j => rowCells (genRow j (ds j))),
       t.progress ++ (List.range' s n).filterMap (fun j =>
         if (j + 1) % q = 0 then some (pctOf num_rows (j + 1), j + 1) else none),
       false⟩ := by
  intro n
  induction n with
  | zero =>
    intro s t ht
    simp only [List.range'_zero, List.foldl_nil, List.map_nil, List.filterMap_nil,
      List.append_nil]
    cases t
    simp_all
  | succ n ih =>
    intro s t ht
    rw [List.range'_succ, List.foldl_cons]
    by_cases hp : (s + 1) % q = 0
    · have hstep : stepRow ds num_rows q t s =
          ⟨t.records ++ [rowCells (genRow s (ds s))],
           t.progress ++ [(pctOf num_rows (s + 1), s + 1)], false⟩ := by
        unfold stepRow
        rw [if_neg (by simp [ht]), if_neg hq, if_pos hp]
        cases t
        simp_all
      rw [hstep, ih (s + 1) _ rfl]
      simp [hp, List.filterMap_cons]
    · have hstep : stepRow ds num_rows q t s =
          ⟨t.records ++ [rowCells (genRow s (ds s))], t.progress, false⟩ := by
        unfold stepRow
        rw [if_neg (by simp [ht]), if_neg hq, if_neg hp]
        cases t
        simp_all
      rw [hstep, ih (s + 1) _ rfl]
      simp [hp, List.filterMap_cons]

lemma generate_of_interval_pos (num_rows : Nat) (ds : Nat → Draws)
    (hq : num_rows / 20 ≠ 0) :
    generate_large_csv num_rows ds =
      ⟨headerCells :: (List.range num_rows).map (fun j => rowCells (genRow j (ds j))),
       (List.range num_rows).filterMap (fun j =>
         if (j + 1) % (num_rows / 20) = 0 then
           some (pctOf num_rows (j + 1), j + 1) else none),
       false⟩ := by
  unfold generate_large_csv
  rw [List.range_eq_range']
  rw [foldl_stepRow_ok ds num_rows (num_rows / 20) hq num_rows 0
    { records := [headerCells], progress := [], faulted := false } rfl]
  simp

lemma generate_head (num_rows : Nat) (ds : Nat → Draws) :
    (generate_large_csv num_rows ds).records.head? = some headerCells := by
  by_cases h0 : num_rows = 0
  · subst h0; rfl
  · by_cases hq : num_rows / 20 = 0
    · rw [generate_of_interval_zero num_rows ds (by omega) hq]
      rfl
    · rw [generate_of_interval_pos num_rows ds hq]
      rfl

lemma generate_faulted_of_interval_zero (num_rows : Nat) (ds : Nat → Draws)
    (h1 : 1 ≤ num_rows) (h0 : num_rows / 20 = 0) :
    (generate_large_csv num_rows ds).faulted = true := by
  rw [generate_of_interval_zero num_rows ds h1 h0]

/-! Claim theorems. -/

/-- C1 counterexample: the header record actually written is not the header
in the column order of spec section 3 (discount_applied before
total_amount); at the concrete invocation with 20 rows and the all-zero
draws the first record is the source-order header, which differs from the
spec-section-3-ordered header. -/
theorem c1_counterexample :
    (generate_large_csv 20 dsZero).records.head? = some headerCells ∧
      headerCells ≠ List.map Cell.s specSectionThreeHeaders :=
  ⟨generate_head 20 dsZero, by decide⟩

/-- C1 (amended): for every invocation of generate_large_csv the first
record written to the sink is the header listing the 15 field names, in
the source's column order (total_amount directly after unit_price,
discount_applied between store_location and customer_age), and every data
row serializes its field values in that same column order as the header. -/
theorem c1_theorem :
    (∀ (num_rows : Nat) (ds : Nat → Draws),
      (generate_large_csv num_rows ds).records.head? = some headerCells) ∧
    headers =
      ["transaction_id", "timestamp", "customer_id", "product_id",
       "category", "quantity", "unit_price", "total_amount",
       "payment_method", "store_location", "discount_applied",
       "customer_age", "customer_segment", "rating", "returned"] ∧
    headers.length = 15 ∧
    (∀ r : Row, rowCells r = headers.map (cellOf r)) :=
  ⟨generate_head, rfl, rfl, fun _ => rfl⟩

/-- C2 counterexample: the source's discount candidate list has 7 elements
with 3 zeros, not the 8-element multiset with 4 zeros stated by the
claim; moreover drawing candidate index 3 yields 1/10, where under the
claim's multiset it would yield 0. -/
theorem c2_counterexample :
    discounts.length = 7 ∧ specDiscountMultiset.length = 8 ∧
    discounts ≠ specDiscountMultiset ∧
    discounts.count 0 = 3 ∧
    (genRow 0 drawsDisc3).discount_applied = 1/10 := by
  refine ⟨rfl, rfl, ?_, ?_, ?_⟩
  · intro h
    have h2 : discounts.length = specDiscountMultiset.length := by rw [h]
    simp [discounts, specDiscountMultiset] at h2
  · norm_num [discounts, List.count_cons]
  · norm_num [genRow_discount_applied, randChoice, discounts, drawsDisc3, drawsZero]

/-- C2 (amended): for every generated row, discount_applied is drawn as a
uniform choice from the 7-element candidate list [0, 0, 0, 0.1, 0.15,
0.2, 0.25], so the probability of no discount is 3 out of 7 candidates,
approximately 43 percent. -/
theorem c2_theorem :
    discounts = [0, 0, 0, 1/10, 3/20, 1/5, 1/4] ∧
    discounts.length = 7 ∧
    discounts.count 0 = 3 ∧
    ((discounts.count 0 : ℚ) / (discounts.length : ℚ) = 3 / 7) ∧
    (∀ (i : Nat) (d : Draws), (genRow i d).discount_applied ∈ discounts) := by
  have hcount : discounts.count 0 = 3 := by norm_num [discounts, List.count_cons]
  refine ⟨rfl, rfl, hcount, ?_, ?_⟩
  · rw [hcount, show discounts.length = 7 from rfl]
    norm_num
  · intro i d
    rw [genRow_discount_applied]
    exact randChoice_mem discounts 0 d.discIdx (by decide)

/-- C3 counterexample: invoking generate_large_csv with row count 0
completes normally (no arithmetic fault) and writes only the header. -/
theorem c3_counterexample :
    (generate_large_csv 0 dsZero).faulted = false ∧
      (generate_large_csv 0 dsZero).records = [headerCells] :=
  ⟨rfl, rfl⟩

/-- C3 (amended): for every draw sequence, generate_large_csv with
row_count 0 completes normally rather than raising an arithmetic error:
progress_interval is the integer floor division 0 // 20 = 0, which raises
nothing by itself, the loop body never executes so the modulo by zero is
never evaluated, and the sink receives exactly the header record. -/
theorem c3_theorem :
    ∀ ds : Nat → Draws,
      generate_large_csv 0 ds = ⟨[headerCells], [], false⟩ :=
  fun _ => rfl

/-- C4 counterexample: at row_count 1 the run faults, but the partial file
is not header-only: it holds 2 records (the header and the first data
row). -/
theorem c4_counterexample :
    (generate_large_csv 1 dsZero).faulted = true ∧
    (generate_large_csv 1 dsZero).records.length = 2 ∧
    (generate_large_csv 1 dsZero).records ≠ [headerCells] := by
  refine ⟨by decide, by decide, ?_⟩
  intro h
  have h1 : (generate_large_csv 1 dsZero).records.length = 1 := by rw [h]; rfl
  have h2 : (generate_large_csv 1 dsZero).records.length = 2 := by decide
  omega

/-- C4 (amended): for every row_count between 1 and 19 inclusive and every
draw sequence, generate_large_csv raises the modulo-by-zero arithmetic
error on the first loop iteration (progress_interval = row_count // 20 =
0 and (i+1) % progress_interval is evaluated), and this happens only
after the header row and the first data row have been written to the
sink, leaving a partial file of exactly those two records and no progress
output. -/
theorem c4_theorem (num_rows : Nat) (ds : Nat → Draws)
    (h1 : 1 ≤ num_rows) (h2 : num_rows ≤ 19) :
    generate_large_csv num_rows ds =
      ⟨[headerCells, rowCells (genRow 0 (ds 0))], [], true⟩ :=
  generate_of_interval_zero num_rows ds h1 (Nat.div_eq_of_lt (by omega))

/-- C4 witness: the amended claim at the concrete input row_count = 5 with
the all-zero draw sequence. -/
theorem c4_witness :
    generate_large_csv 5 dsZero =
      ⟨[headerCells, rowCells (genRow 0 (dsZero 0))], [], true⟩ :=
  c4_theorem 5 dsZero (by decide) (by decide)

/-- C5: for every positive row_count on which generate_large_csv completes
without the fault, the records written are exactly the header first and
then one data row per row index in increasing order, with no gaps and no
duplicates, so the sink holds row_count data records plus one header. -/
theorem c5_theorem (num_rows : Nat) (ds : Nat → Draws) (hpos : 0 < num_rows)
    (hok : (generate_large_csv num_rows ds).faulted = false) :
    (generate_large_csv num_rows ds).records =
      headerCells :: (List.range num_rows).map (fun i => rowCells (genRow i (ds i))) ∧
    (generate_large_csv num_rows ds).records.length = num_rows + 1 := by
  have hq : num_rows / 20 ≠ 0 := by
    intro h0
    have hf := generate_faulted_of_interval_zero num_rows ds hpos h0
    rw [hf] at hok
    simp at hok
  rw [generate_of_interval_pos num_rows ds hq]
  exact ⟨rfl, by simp⟩

/-- C5 witness: the claim at the concrete input row_count = 20 with the
all-zero draw sequence, on which the run completes. -/
theorem c5_witness :
    (generate_large_csv 20 dsZero).records =
      headerCells :: (List.range 20).map (fun i => rowCells (genRow i (dsZero i))) ∧
    (generate_large_csv 20 dsZero).records.length = 21 :=
  c5_theorem 20 dsZero (by decide) (by decide)

/-- C6: for every generated row, total_amount equals round2 of quantity
times unit_price times (1 - discount_applied), all taken from that same
row, with the rounding applied to the product (after the multiplication,
not before). -/
theorem c6_theorem :
    ∀ (i : Nat) (d : Draws),
      (genRow i d).total_amount =
        round2 (((genRow i d).quantity : ℚ) * (genRow i d).unit_price *
          (1 - (genRow i d).discount_applied)) :=
  fun _ _ => rfl

/-- C7: every row's transaction_id is txnId of its index, which is the TXN
prefix followed by index+1 zero-padded to 8 digits; txnId is injective
(ids are unique across the file), the numeric payload after the prefix is
exactly index+1 and is strictly increasing in the row index, and for
index+1 below 10^8 the id is exactly 11 characters (3-character prefix
plus 8 digits). -/
theorem c7_theorem :
    (∀ (i : Nat) (d : Draws), (genRow i d).transaction_id = txnId i) ∧
    Function.Injective txnId ∧
    (∀ i : Nat, decodeDigits ((txnId i).data.drop 3) = i + 1) ∧
    StrictMono (fun i => decodeDigits ((txnId i).data.drop 3)) ∧
    (∀ i : Nat, i + 1 < 10 ^ 8 → (txnId i).data.length = 11) := by
  refine ⟨fun _ _ => rfl, txnId_injective, decode_txnId, ?_, txnId_length⟩
  intro a b h
  simp only [decode_txnId]
  omega

/-- C7 witness: the bounded-length conjunct of the theorem at the concrete
row index 41. -/
theorem c7_witness : (txnId 41).data.length = 11 :=
  c7_theorem.2.2.2.2 41 (by decide)

/-- C8: for every row and every possible draw of the random source,
quantity is an integer in [1, 10], customer_age is an integer in
[18, 80], and unit_price lies in [5.99, 999.99]. -/
theorem c8_theorem :
    ∀ (i : Nat) (d : Draws),
      1 ≤ (genRow i d).quantity ∧ (genRow i d).quantity ≤ 10 ∧
      18 ≤ (genRow i d).customer_age ∧ (genRow i d).customer_age ≤ 80 ∧
      (599/100 : ℚ) ≤ (genRow i d).unit_price ∧
      (genRow i d).unit_price ≤ 99999/100 := by
  intro i d
  obtain ⟨hq1, hq2⟩ := randint_bounds 1 10 d.qty (by norm_num)
  obtain ⟨ha1, ha2⟩ := randint_bounds 18 80 d.age (by norm_num)
  obtain ⟨hu1, hu2⟩ := unit_price_bounds d.priceRaw
  rw [genRow_quantity, genRow_customer_age, genRow_unit_price]
  exact ⟨hq1, hq2, ha1, ha2, hu1, hu2⟩

/-- C9 counterexample: the selector SMALL is not one of the four lowercase
strings, yet the program invokes the generator on it (the source
lowercases the selector before comparing), contradicting the claim that
every selector outside the four-string set leads to the usage message. -/
theorem c9_counterexample :
    mainDispatch ["SMALL"] =
      MainAction.run "test-datasets/large/transactions-small.csv" 10000 ∧
    ("SMALL" : String) ∉ (["small", "medium", "large", "xlarge"] : List String) := by
  decide

/-- C9 (amended): for every command-line selector whose lowercased form is
not one of small, medium, large or xlarge, the program prints the usage
message and does not invoke the generator. -/
theorem c9_theorem (a : String) (rest : List String)
    (h : lowerStr a ∉ (["small", "medium", "large", "xlarge"] : List String)) :
    mainDispatch (a :: rest) = MainAction.usage := by
  simp only [List.mem_cons, List.not_mem_nil, or_false, not_or] at h
  obtain ⟨h1, h2, h3, h4⟩ := h
  simp [mainDispatch, h1, h2, h3, h4]

/-- C9 witness: the amended claim at the concrete unrecognized selector
xyz. -/
theorem c9_witness : mainDispatch ["xyz"] = MainAction.usage :=
  c9_theorem "xyz" [] (by decide)

/-- C10 counterexample: with row_count 41 the cumulative count 3 crosses
the first 1/20th boundary of 41 (namely 41/20 = 2.05), yet no progress
line with row count 3 is emitted (progress_interval is 41 // 20 = 2 and
3 is not a multiple of 2). -/
theorem c10_counterexample :
    crossesBoundary 41 3 ∧
      ∀ p ∈ (generate_large_csv 41 dsZero).progress, p.2 ≠ 3 :=
  ⟨by decide, by decide⟩

/-- C10 (amended): when progress_interval = row_count // 20 is nonzero, a
progress line carrying row count r is emitted exactly when 1 ≤ r ≤
row_count and r is a multiple of row_count // 20; and when row_count is a
positive multiple of 20, that condition coincides exactly with the
crossings of the 1/20th boundaries of row_count, so the original claim
holds in the multiple-of-20 case it singles out. -/
theorem c10_theorem (num_rows : Nat) (ds : Nat → Draws)
    (hq : num_rows / 20 ≠ 0) (r : Nat) :
    ((∃ p, (p, r) ∈ (generate_large_csv num_rows ds).progress) ↔
      1 ≤ r ∧ r ≤ num_rows ∧ r % (num_rows / 20) = 0) ∧
    (∀ k, num_rows = 20 * k → 1 ≤ r → r ≤ num_rows →
      (r % (num_rows / 20) = 0 ↔ crossesBoundary num_rows r)) := by
  constructor
  · rw [generate_of_interval_pos num_rows ds hq]
    simp only [List.mem_filterMap, List.mem_range]
    constructor
    · rintro ⟨p, j, hj, hif⟩
      by_cases hc : (j + 1) % (num_rows / 20) = 0
      · rw [if_pos hc] at hif
        simp only [Option.some.injEq, Prod.mk.injEq] at hif
        obtain ⟨-, hr⟩ := hif
        subst hr
        exact ⟨by omega, by omega, hc⟩
      · rw [if_neg hc] at hif
        exact absurd hif (by simp)
    · rintro ⟨h1, h2, h3⟩
      refine ⟨pctOf num_rows r, r - 1, by omega, ?_⟩
      have he : r - 1 + 1 = r := by omega
      rw [he, if_pos h3]
  · rintro k rfl h1 h2
    have hk : 0 < k := by
      rcases Nat.eq_zero_or_pos k with h | h
      · subst h; simp at hq
      · exact h
    have h20 : 20 * k / 20 = k := Nat.mul_div_cancel_left k (by norm_num)
    rw [h20]
    constructor
    · intro hmod
      obtain ⟨c, hc⟩ := Nat.dvd_of_mod_eq_zero hmod
      have hc1 : 1 ≤ c := by
        rcases Nat.eq_zero_or_pos c with h | h
        · subst h; omega
        · exact h
      have hc20 : c ≤ 20 := by
        have hmul : k * c ≤ k * 20 := by omega
        exact Nat.le_of_mul_le_mul_left hmul hk
      refine ⟨c, by omega, hc1, ?_, ?_⟩
      · have he : c * (20 * k) = 20 * r := by rw [hc]; ring
        rw [he]
        omega
      · have he : c * (20 * k) = 20 * r := by rw [hc]; ring
        rw [he]
    · rintro ⟨m, hm21, hm1, hlt, hle⟩
      have he : m * (20 * k) = 20 * (m * k) := by ring
      rw [he] at hlt hle
      have hlt2 : r - 1 < m * k := Nat.lt_of_mul_lt_mul_left hlt
      have hle2 : m * k ≤ r := Nat.le_of_mul_le_mul_left hle (by norm_num)
      obtain ⟨x, hx⟩ : ∃ x, m * k = x := ⟨_, rfl⟩
      rw [hx] at hlt2 hle2
      have hxr : x = r := by omega
      have hrx : r = m * k := by rw [hx, hxr]
      rw [hrx, Nat.mul_mod_left]

/-- C10 witness: the amended claim at the concrete input row_count = 20
(a positive multiple of 20), row count 20, with the all-zero draws. -/
theorem c10_witness :
    ((∃ p, (p, 20) ∈ (generate_large_csv 20 dsZero).progress) ↔
      1 ≤ 20 ∧ 20 ≤ 20 ∧ 20 % (20 / 20) = 0) ∧
    (20 % (20 / 20) = 0 ↔ crossesBoundary 20 20) :=
  ⟨(c10_theorem 20 dsZero (by decide) 20).1,
   (c10_theorem 20 dsZero (by decide) 20).2 1 (by decide) (by decide) (by decide)⟩
